import Mathlib

/-!
# Verification of the triaia-web core against its specification

This file gives a shallow embedding, in Lean 4, of the core logic of the
triaia-web repository (a TypeScript/React application): the evidence/readiness
inference, the stability scoring engine (`buildSnapshot`), the intervention
state machine (`runDeterministicCheck` / `applyInterventionChoice`), the
planner-signal failure/decay policy (`refreshPlannerSignal`), and the
boarding-pass extractor (`parseBoardingPassPayload` and its helpers).

Conventions of the embedding:
* JavaScript numbers are modelled as `ℚ` (all constants appearing in the code
  are exactly representable; no claim below depends on float rounding).
  `Math.floor` is `Int.floor`, `Math.round` is `jsRound` (floor of `x + 1/2`),
  `Math.min`/`Math.max` are `min`/`max`, and the repository's `clamp` helper
  is `clamp` below.
* Ambient-environment reads (`new Date()`, `Date` parsing/formatting, which are
  timezone- and clock-dependent) are threaded explicitly through a `JsDateEnv`
  parameter; every theorem quantifies over the environment.
* JavaScript regular-expression searches are hand-translated into explicit
  left-to-right scanners with the same backtracking order (greedy quantifiers
  try longest first, alternations try left first); `String.localeCompare` on
  the fixed ASCII titles of this code base is modelled by code-unit order.
* React `useState` cells become fields of explicit state records, and each
  handler becomes a state-transition function.
-/

namespace Triaia

/-! ## Enumerations of the data model (part_002 lines 235-269) -/

inductive Regime
  | hard
  | soft
  | resource
deriving DecidableEq, Repr

inductive StructuralMode
  | automatic
  | manual
deriving DecidableEq, Repr

inductive InterventionState
  | CONTINUE
  | DEVIATE
  | PLANB
  | PAUSE
deriving DecidableEq, Repr

inductive StabilityState
  | stable
  | strained
  | critical
deriving DecidableEq, Repr

inductive GpsStatus
  | inactive
  | requesting
  | granted
  | denied
  | gpsError
  | unsupported
deriving DecidableEq, Repr

inductive WeatherStatus
  | inactive
  | awaiting_gps
  | loading
  | ready
  | weatherError
deriving DecidableEq, Repr

inductive WeatherRisk
  | low
  | moderate
  | high
deriving DecidableEq, Repr

inductive PlannerStatus
  | inactive
  | loading
  | ready
  | plannerError
deriving DecidableEq, Repr

inductive Movement
  | moving
  | stationary
  | unknown
deriving DecidableEq, Repr

inductive CouplingKey
  | biometric
  | geospatial
  | calendar
  | planner
  | fleet
  | drone
  | satellite
  | weather
  | financial
deriving DecidableEq, Repr

inductive ContractDocumentType
  | flight_itinerary
  | boarding_pass
  | hotel_booking
  | event_ticket
  | calendar_invite
  | meeting_confirmation
  | transport_booking
  | visa_or_id
  | other
deriving DecidableEq, Repr

inductive SourceFormat
  | bcbp
  | generic
deriving DecidableEq, Repr

/-! ## Numeric helpers -/

/-- The repository's `clamp(value, min, max) = Math.min(max, Math.max(min, value))`
(part_002 lines 945-947). -/
def clamp (value lo hi : ℚ) : ℚ := min hi (max lo value)

/-- JavaScript `Math.round`: round half away from zero upward, i.e. `⌊x + 1/2⌋`. -/
def jsRound (x : ℚ) : ℤ := ⌊x + 1/2⌋

/-! ## Evidence / readiness data model (part_002 lines 408-444) -/

structure ContractDocument where
  id : String
  docType : ContractDocumentType
  title : String
  sourceLink : String
  referenceCode : String
  notes : String
deriving DecidableEq, Repr

structure DocumentSuggestion where
  docType : ContractDocumentType
  title : String
  reason : String
  required : Bool
deriving DecidableEq, Repr

structure DocumentReadiness where
  expectedTypes : List ContractDocumentType
  missingTypes : List ContractDocumentType
  expectedCount : ℕ
  linkedExpectedCount : ℕ
  linkedTotalCount : ℕ
  coverage : ℚ
  label : String
deriving DecidableEq, Repr

/-- `hasDocumentSignal` (part_002 lines 785-789): a document is "linked" iff any
of title / sourceLink / referenceCode / notes is non-empty after trimming. -/
def hasDocumentSignal (d : ContractDocument) : Bool :=
  [d.title, d.sourceLink, d.referenceCode, d.notes].any fun v => v.trim.length > 0

/-- Insertion-order deduplication, as performed by `Array.from(new Set(...))`:
keeps the first occurrence of each element. -/
def dedupFirstAux [DecidableEq α] (seen : List α) : List α → List α
  | [] => []
  | a :: rest =>
    if a ∈ seen then dedupFirstAux seen rest else a :: dedupFirstAux (a :: seen) rest

def dedupFirst [DecidableEq α] (l : List α) : List α := dedupFirstAux [] l

/-- `deriveDocumentReadiness` (part_002 lines 894-935). -/
def deriveDocumentReadiness (documents : List ContractDocument)
    (suggestions : List DocumentSuggestion) : DocumentReadiness :=
  let linkedDocuments := documents.filter hasDocumentSignal
  let linkedTypes := linkedDocuments.map (·.docType)
  let expectedTypes := dedupFirst ((suggestions.filter (·.required)).map (·.docType))
  let missingTypes := expectedTypes.filter fun t => ! linkedTypes.contains t
  let linkedExpectedCount := expectedTypes.length - missingTypes.length
  let expectedCount := expectedTypes.length
  let coverage : ℚ :=
    if expectedCount > 0 then (linkedExpectedCount : ℚ) / (expectedCount : ℚ)
    else if linkedDocuments.length > 0 then 1
    else 3/4
  let label :=
    if expectedCount = 0 then
      if linkedDocuments.length > 0 then "Baseline evidence linked"
      else "No required evidence profile detected yet"
    else if (99 : ℚ)/100 ≤ coverage then "Key evidence linked"
    else if (1 : ℚ)/2 ≤ coverage then "Key evidence partial"
    else "Key evidence thin"
  { expectedTypes := expectedTypes
    missingTypes := missingTypes
    expectedCount := expectedCount
    linkedExpectedCount := linkedExpectedCount
    linkedTotalCount := linkedDocuments.length
    coverage := clamp coverage 0 1
    label := label }

/-! ## Keyword detection over free text

The suggestion rules test the lower-cased context text with word-bounded
alternation patterns such as `/\b(flight|airport|...)\b/`.  These are modelled
by an explicit left-to-right scanner: a keyword matches at a position iff the
previous character (if any) is not a word character, the keyword's characters
follow verbatim, and the next character (if any) is not a word character. -/

/-- JavaScript's `\w` character class: ASCII letters, digits and underscore. -/
def isWordChar (c : Char) : Bool := c.isAlphanum || c = '_'

/-- Does the word `w` occur at the head of `cs`, followed by a `\b` boundary? -/
def wordAt : List Char → List Char → Bool
  | [], [] => true
  | c :: _, [] => ! isWordChar c
  | [], _ :: _ => false
  | c :: cs, wc :: wrest => (c = wc) && wordAt cs wrest

/-- Scan `cs` left to right, tracking whether the previous character was a word
character, and report whether any of the alternatives `ws` occurs with `\b`
boundaries on both sides. -/
def containsWordAux (ws : List (List Char)) : Bool → List Char → Bool
  | _, [] => false
  | prevWord, c :: rest =>
    ((! prevWord) && ws.any fun w => wordAt (c :: rest) w)
      || containsWordAux ws (isWordChar c) rest

/-- `/\b(w1|w2|...)\b/.test(s)` for a list of plain-word alternatives. -/
def testWordAlternation (ws : List String) (s : String) : Bool :=
  containsWordAux (ws.map String.toList) false s.toList

/-! ## Document suggestion inference (part_002 lines 797-892) -/

/-- The outcome of the six keyword tests performed by
`inferContractDocumentSuggestions` on the lower-cased context text, together
with the `flightContextDetected` disjunct. -/
structure ContextFlags where
  flight : Bool
  eventCtx : Bool
  hotelCtx : Bool
  meetingCtx : Bool
  visaCtx : Bool
  transportCtx : Bool
deriving DecidableEq, Repr

/-- `computeFlags` evaluates the keyword regular expressions of
`inferContractDocumentSuggestions` (part_002 lines 831-865) on the lower-cased
context text. -/
def computeFlags (contextText : String) (flightContextDetected : Bool) : ContextFlags :=
  let context := contextText.toLower
  { flight := flightContextDetected ||
      testWordAlternation
        ["flight", "airport", "airline", "terminal", "gate", "boarding", "check-in",
          "itinerary"] context
    eventCtx := testWordAlternation
      ["convention", "conference", "expo", "summit", "event", "blizzcon"] context
    hotelCtx := testWordAlternation ["hotel", "accommodation", "lodging", "check-in"] context
    meetingCtx := testWordAlternation
      ["meeting", "interview", "appointment", "client", "demo"] context
    visaCtx := testWordAlternation ["visa", "passport", "immigration", "border"] context
    transportCtx := testWordAlternation
      ["train", "bus", "taxi", "uber", "lyft", "shuttle", "transport", "transfer"] context }

/-- `addSuggestion` (part_002 lines 806-820): the suggestions live in an
insertion-ordered map keyed by document type; inserting an existing key keeps
its position, original title and reason, and only upgrades the `required`
flag (never downgrades it). -/
def addSuggestion (docType : ContractDocumentType) (title reason : String)
    (required : Bool) : List DocumentSuggestion → List DocumentSuggestion
  | [] => [⟨docType, title, reason, required⟩]
  | s :: rest =>
    if s.docType = docType then
      (if required && ! s.required then { s with required := true } else s) :: rest
    else s :: addSuggestion docType title reason required rest

/-- Lexicographic code-unit comparison of character lists. -/
def charListLE : List Char → List Char → Bool
  | [], _ => true
  | _ :: _, [] => false
  | a :: as, b :: bs => if a = b then charListLE as bs else decide (a < b)

/-- The comparator of part_002 lines 886-891: required suggestions first, then
ascending by title (`localeCompare`, modelled as code-unit order on the fixed
ASCII titles). -/
def suggestionLE (a b : DocumentSuggestion) : Bool :=
  if a.required != b.required then a.required else charListLE a.title.toList b.title.toList

def insertLE (x : DocumentSuggestion) : List DocumentSuggestion → List DocumentSuggestion
  | [] => [x]
  | y :: ys => if suggestionLE y x then y :: insertLE x ys else x :: y :: ys

/-- Stable sort by `suggestionLE`, modelling `Array.prototype.sort`. -/
def sortSuggestions (l : List DocumentSuggestion) : List DocumentSuggestion :=
  l.foldl (fun acc x => insertLE x acc) []

/-- The rule body of `inferContractDocumentSuggestions` (part_002 lines
797-892), after the keyword tests have been evaluated into `flags`. -/
def inferFromFlags (regime : Regime) (flags : ContextFlags) : List DocumentSuggestion :=
  let l : List DocumentSuggestion := []
  let l := if regime = .hard then
      addSuggestion .calendar_invite "Boundary confirmation"
        "Adds explicit boundary anchoring for a time-fixed contract." false l
    else l
  let l := if flags.flight then
      addSuggestion .transport_booking "Ground transport"
        "Supports airport alignment under boundary pressure." false
        (addSuggestion .boarding_pass "Boarding pass"
          "Adds boundary verification close to departure." true
          (addSuggestion .flight_itinerary "Flight itinerary"
            "Confirms departure boundary details." true l))
    else l
  let l := if flags.eventCtx then
      addSuggestion .calendar_invite "Calendar hold" "Keeps schedule alignment visible." false
        (addSuggestion .hotel_booking "Hotel confirmation"
          "Stabilizes lodging dependency around the boundary." false
          (addSuggestion .event_ticket "Event registration or ticket"
            "Confirms destination-bound contract intent." true l))
    else l
  let l := if flags.hotelCtx then
      addSuggestion .hotel_booking "Hotel confirmation"
        "Tracks lodging dependency for this contract." false l
    else l
  let l := if flags.meetingCtx then
      addSuggestion .calendar_invite "Calendar invite" "Keeps schedule coupling explicit." false
        (addSuggestion .meeting_confirmation "Meeting confirmation"
          "Anchors objective alignment with the counterpart schedule." (regime = .hard) l)
    else l
  let l := if flags.visaCtx then
      addSuggestion .visa_or_id "Visa or ID proof"
        "Tracks boundary-related compliance dependencies." false l
    else l
  let l := if flags.transportCtx then
      addSuggestion .transport_booking "Transport booking"
        "Tracks alignment dependency on mobility." false l
    else l
  let l := if regime = .resource then
      addSuggestion .other "Resource baseline record"
        "Captures resource-constraint assumptions for future checks." true l
    else l
  let hasRequired := l.any (·.required)
  let l := if regime = .hard && ! hasRequired then
      addSuggestion .meeting_confirmation "Boundary commitment record"
        "Provides at least one explicit hard-boundary confirmation source." true l
    else l
  sortSuggestions l

/-- `inferContractDocumentSuggestions` (part_002 lines 797-892). -/
def inferContractDocumentSuggestions (regime : Regime) (contextText : String)
    (flightContextDetected : Bool) : List DocumentSuggestion :=
  inferFromFlags regime (computeFlags contextText flightContextDetected)

/-! ## Signal values and the ambient JavaScript date environment -/

structure GeoSignal where
  latitude : ℚ
  longitude : ℚ
  accuracyMeters : ℚ
  speedKmh : Option ℚ
  movement : Movement
  updatedAtIso : String
deriving DecidableEq, Repr

structure WeatherSignal where
  temperatureC : Option ℚ
  windKph : Option ℚ
  precipitationMm : Option ℚ
  weatherCode : Option ℚ
  risk : WeatherRisk
  summary : String
  updatedAtIso : String
deriving DecidableEq, Repr

structure PlannerSignal where
  totalTasks : ℕ
  completedTasks : ℕ
  overdueTasks : ℕ
  dueNext24h : ℕ
  lastUpdated : ℤ
deriving DecidableEq, Repr

/-- `DEFAULT_PLANNER_SIGNAL` (part_002 lines 451-457): an all-zero reading. -/
def DEFAULT_PLANNER_SIGNAL : PlannerSignal :=
  { totalTasks := 0, completedTasks := 0, overdueTasks := 0, dueNext24h := 0, lastUpdated := 0 }

/-- The ambient JavaScript `Date` facilities used by the core.  Timezone- and
clock-dependent operations are modelled as fields of this environment; every
theorem below quantifies over it.
* `parseDeadlineMs` models `parseDeadline` / `new Date(string).getTime()`
  (part_002 lines 965-971), returning epoch milliseconds or `none`;
* `todayDateOnly` models `formatDateOnlyLocal(new Date())`;
* `julianDateOnly j` models
  `formatDateOnlyLocal(inferDateFromJulianDay(j, new Date()))`
  (part_002 lines 1398-1412);
* `parseMs` / `formatDateTimeLocalMs` model the `Date` round-trip used by
  `shiftLocalMinutes` (part_002 lines 1431-1440). -/
structure JsDateEnv where
  parseDeadlineMs : String → Option ℤ
  todayDateOnly : String
  julianDateOnly : ℕ → String
  parseMs : String → Option ℤ
  formatDateTimeLocalMs : ℤ → String

/-! ## The stability scoring engine `buildSnapshot` (part_002 lines 1593-1831) -/

structure Snapshot where
  remainingMargin : String
  capacityLevel : String
  uncertaintyEnvelope : String
  regimeClassification : String
  intervention : InterventionState
  stability : StabilityState
  boundaryScore : ℚ
  capacityScore : ℚ
  uncertaintyScore : ℚ
  overallIndex : ℚ
  documentCoverage : ℚ
  documentLinked : ℕ
  documentExpected : ℕ
  documentReadinessLabel : String
deriving DecidableEq, Repr

structure SnapshotParams where
  regime : Regime
  structuralMode : StructuralMode
  couplingCount : ℕ
  hardBoundary : String
  nowMs : ℤ
  softObjective : String
  resourceConstraint : String
  geospatialEnabled : Bool
  gpsStatus : GpsStatus
  geoSignal : Option GeoSignal
  weatherEnabled : Bool
  weatherSignal : Option WeatherSignal
  weatherStatus : WeatherStatus
  plannerEnabled : Bool
  plannerSignal : Option PlannerSignal
  plannerStatus : PlannerStatus
  plannerSignalWeight : ℚ
  documentReadiness : DocumentReadiness

/-- `stabilityFromScore` (part_002 lines 1067-1074). -/
def stabilityFromScore (score : ℚ) : StabilityState :=
  if 70 ≤ score then .stable else if 45 ≤ score then .strained else .critical

/-- `formatCountdown` (part_002 lines 973-978). -/
def formatCountdown (totalMinutes : ℚ) : String :=
  let safe : ℤ := max 0 ⌊totalMinutes⌋
  toString (safe / 60) ++ "h " ++ toString (safe % 60) ++ "m"

/-- `regime.toUpperCase()` on the three regime literals. -/
def regimeUpper : Regime → String
  | .hard => "HARD"
  | .soft => "SOFT"
  | .resource => "RESOURCE"

/-- The running `score` accumulator of `buildSnapshot` before the hard-regime
time-pressure block (part_002 lines 1634-1705). -/
def baseScore (p : SnapshotParams) : ℚ :=
  let score : ℚ := 78
  let score := score -
    (match p.regime with
      | .hard => 13
      | .resource => 10
      | .soft => 7)
  let score := if p.structuralMode = .manual then score - 7 else score
  let score := if p.couplingCount = 0 then score - 11
    else score + (p.couplingCount : ℚ) * (5/2)
  let score := if p.geospatialEnabled then
      if p.gpsStatus = .granted then
        score + (if p.geoSignal.map (·.movement) = some .moving then 4 else 1)
      else if p.gpsStatus = .requesting then score - 2
      else if p.gpsStatus = .denied ∨ p.gpsStatus = .gpsError ∨ p.gpsStatus = .unsupported then
        score - 10
      else score
    else score
  let score := if p.weatherEnabled then
      match p.weatherStatus, p.weatherSignal with
      | .ready, some w =>
        score - (if w.risk = .high then 10 else if w.risk = .moderate then 5 else 1)
      | st, _ =>
        if st = .loading ∨ st = .awaiting_gps then score - 2
        else if st = .weatherError then score - 5
        else score
    else score
  let score := if p.documentReadiness.expectedCount > 0 then
      if p.documentReadiness.coverage < 34/100 then score - 12
      else if p.documentReadiness.coverage < 67/100 then score - 6
      else score + 2
    else score
  let score := if p.plannerEnabled then
      match p.plannerSignal with
      | some ps =>
        let overduePenalty := min 18 ((ps.overdueTasks : ℚ) * 3 * p.plannerSignalWeight)
        let dueWindowPenalty := min 12 ((ps.dueNext24h : ℚ) * (8/5) * p.plannerSignalWeight)
        let completionSupport :=
          if ps.totalTasks > 0 then
            min 8 ((ps.completedTasks : ℚ) / (ps.totalTasks : ℚ) * 8)
          else 0
        score - (overduePenalty + dueWindowPenalty - completionSupport)
      | none => if p.plannerStatus = .plannerError then score - 6 else score - 2
    else score
  score

/-- `minutesToBoundary` (part_002 lines 1707-1710): `0` unless the regime is
hard and the boundary parses; otherwise minutes to the boundary, floored at 0. -/
def minutesToBoundary (env : JsDateEnv) (p : SnapshotParams) : ℤ :=
  match env.parseDeadlineMs p.hardBoundary with
  | some t => if p.regime = .hard then max 0 ⌊(((t : ℚ) - (p.nowMs : ℚ)) / 60000)⌋ else 0
  | none => 0

/-- The `score` accumulator after the hard-regime time-pressure block
(part_002 lines 1707-1718). -/
def scoreAfterTimePressure (env : JsDateEnv) (p : SnapshotParams) : ℚ :=
  let score := baseScore p
  let m := minutesToBoundary env p
  if p.regime = .hard ∧ (env.parseDeadlineMs p.hardBoundary).isSome then
    if m ≤ 240 then score - 34
    else if m ≤ 720 then score - 20
    else if m ≤ 1440 then score - 9
    else score
  else score

/-- The triple of mutable sub-score variables of `buildSnapshot`. -/
structure SubScores where
  b : ℚ
  c : ℚ
  u : ℚ
deriving DecidableEq, Repr

/-- Initial `boundaryScore` / `capacityScore` / `uncertaintyScore`
(part_002 lines 1720-1726). -/
def initialSubScores (env : JsDateEnv) (p : SnapshotParams) : SubScores :=
  let score := scoreAfterTimePressure env p
  let m := minutesToBoundary env p
  { b := clamp
      (if p.regime = .hard then
        score + (if 0 < m then min 20 ((m : ℚ) / 120) else -18)
      else score + 4) 5 95
    c := clamp (score + (if p.structuralMode = .automatic then 5 else -4)) 5 95
    u := clamp ((32 : ℚ) + (p.couplingCount : ℚ) * 9 + (if p.regime = .soft then 6 else 0)) 5 95 }

/-- Weather adjustment to the uncertainty sub-score (part_002 lines 1728-1736). -/
def applyWeatherBlock (p : SnapshotParams) (s : SubScores) : SubScores :=
  match p.weatherSignal with
  | some w =>
    if p.weatherEnabled then
      let penalty : ℚ := if w.risk = .high then 14 else if w.risk = .moderate then 8 else 2
      { s with u := clamp (s.u - penalty) 5 95 }
    else s
  | none => s

/-- Document-evidence adjustments (part_002 lines 1738-1754). -/
def applyDocBlock (p : SnapshotParams) (s : SubScores) : SubScores :=
  let dr := p.documentReadiness
  if dr.expectedCount > 0 then
    let missingBoundaryEvidenceCount :=
      (dr.missingTypes.filter fun t =>
        t ∈ [ContractDocumentType.flight_itinerary, .boarding_pass, .event_ticket,
          .meeting_confirmation, .calendar_invite]).length
    let s := if missingBoundaryEvidenceCount ≥ 2 then { s with b := clamp (s.b - 10) 5 95 }
      else if missingBoundaryEvidenceCount = 1 then { s with b := clamp (s.b - 5) 5 95 }
      else s
    if dr.coverage < 1 then
      { s with u := clamp (s.u - (jsRound ((1 - dr.coverage) * 10) : ℚ)) 5 95 }
    else { s with u := clamp (s.u + 2) 5 95 }
  else s

/-- Planner adjustments to the three sub-scores (part_002 lines 1756-1771). -/
def applyPlannerBlock (p : SnapshotParams) (s : SubScores) : SubScores :=
  if p.plannerEnabled then
    match p.plannerSignal with
    | some ps =>
      let dueWindowPenalty := min 10 ((ps.dueNext24h : ℚ) * (6/5) * p.plannerSignalWeight)
      let overduePenalty := min 14 ((ps.overdueTasks : ℚ) * (9/5) * p.plannerSignalWeight)
      let completionSupport :=
        if ps.totalTasks > 0 then
          min 7 ((ps.completedTasks : ℚ) / (ps.totalTasks : ℚ) * 7)
        else 0
      { b := clamp (s.b - dueWindowPenalty) 5 95
        c := clamp (s.c - overduePenalty + completionSupport) 5 95
        u := clamp (s.u - min 8 (overduePenalty * (1/2))) 5 95 }
    | none =>
      if p.plannerStatus = .plannerError then { s with u := clamp (s.u - 6) 5 95 } else s
  else s

/-- Geospatial adjustments (part_002 lines 1773-1780). -/
def applyGeoBlock (p : SnapshotParams) (s : SubScores) : SubScores :=
  if p.geospatialEnabled then
    if p.gpsStatus = .granted then
      let bonus : ℚ := if p.geoSignal.map (·.movement) = some .moving then 7 else 3
      { s with b := clamp (s.b + bonus) 5 95 }
    else if p.gpsStatus = .denied ∨ p.gpsStatus = .gpsError ∨ p.gpsStatus = .unsupported then
      { s with b := clamp (s.b - 12) 5 95, c := clamp (s.c - 6) 5 95 }
    else s
  else s

/-- The final values of the three sub-score variables, after all blocks. -/
def finalSubScores (env : JsDateEnv) (p : SnapshotParams) : SubScores :=
  applyGeoBlock p (applyPlannerBlock p (applyDocBlock p (applyWeatherBlock p
    (initialSubScores env p))))

/-- `buildSnapshot` (part_002 lines 1593-1831). -/
def buildSnapshot (env : JsDateEnv) (p : SnapshotParams) : Snapshot :=
  let s := finalSubScores env p
  let aggregate := clamp ((s.b + s.c + s.u) / 3) 5 95
  let intervention : InterventionState :=
    if 70 ≤ aggregate then .CONTINUE
    else if 52 ≤ aggregate then .DEVIATE
    else if p.regime = .hard then .PLANB
    else .PAUSE
  let remainingMargin :=
    match p.regime with
    | .hard =>
      match env.parseDeadlineMs p.hardBoundary with
      | some t => formatCountdown (max 0 (((t : ℚ) - (p.nowMs : ℚ)) / 60000)) ++ " to boundary"
      | none => "Boundary not configured"
    | .soft =>
      if p.softObjective.trim ≠ "" then
        "Objective integrity margin " ++ toString (jsRound aggregate) ++ "%"
      else "Objective descriptor required"
    | .resource =>
      if p.resourceConstraint.trim ≠ "" then
        "Resource margin index " ++ toString (jsRound aggregate) ++ "%"
      else "Resource constraint required"
  let capacityLevel :=
    if 70 ≤ aggregate then "Nominal"
    else if 52 ≤ aggregate then "Tension-adjusted"
    else "Critical load"
  let uncertaintyEnvelope :=
    if p.couplingCount ≥ 5 then "NARROW" else if p.couplingCount ≥ 2 then "MODERATE" else "WIDE"
  { remainingMargin := remainingMargin
    capacityLevel := capacityLevel
    uncertaintyEnvelope := uncertaintyEnvelope
    regimeClassification := regimeUpper p.regime ++ " REGIME"
    intervention := intervention
    stability := stabilityFromScore aggregate
    boundaryScore := s.b
    capacityScore := s.c
    uncertaintyScore := s.u
    overallIndex := aggregate
    documentCoverage := p.documentReadiness.coverage
    documentLinked := p.documentReadiness.linkedExpectedCount
    documentExpected := p.documentReadiness.expectedCount
    documentReadinessLabel := p.documentReadiness.label }

/-! ## Stored plans and the component check state (part_002 lines 304-325, 2204, 3182-3245)

The React `useState` cells touched by `runDeterministicCheck`,
`applyInterventionChoice` and `persistCurrentPlanSnapshot` are gathered into
an explicit `CheckState` record; each handler becomes a transition function.
`nowIso()` (the ambient clock) is passed in as an explicit `nowStr` argument,
and the derived `stateCriteria` array as an explicit list. -/

inductive PlanStatus
  | active
  | paused
  | archived
  | completed
deriving DecidableEq, Repr

structure LastSnapshot where
  stability : StabilityState
  intervention : InterventionState
  remainingMargin : String
deriving DecidableEq, Repr

structure StoredPlan where
  id : String
  planIdentifier : String
  planDomain : String
  contractDocuments : List ContractDocument
  regime : Regime
  structuralMode : StructuralMode
  hardBoundary : String
  softObjective : String
  resourceConstraint : String
  couplings : CouplingKey → Bool
  status : PlanStatus
  createdAt : String
  updatedAt : String
  checkCount : ℕ
  violationStreak : ℕ
  lastSnapshot : LastSnapshot

structure CheckState where
  checkCount : ℕ
  violationStreak : ℕ
  showInterventionModal : Bool
  checkFeedback : String
  plans : List StoredPlan
  currentPlanId : Option String
  planIdentifier : String
  planDomain : String
  contractDocuments : List ContractDocument
  activeRegime : Regime
  structuralMode : StructuralMode
  hardBoundary : String
  softObjective : String
  resourceConstraint : String
  couplings : CouplingKey → Bool
  snapshot : Snapshot

/-- The display string of an intervention state (string-literal union in TS). -/
def interventionLabel : InterventionState → String
  | .CONTINUE => "CONTINUE"
  | .DEVIATE => "DEVIATE"
  | .PLANB => "PLAN B"
  | .PAUSE => "PAUSE"

/-- `persistCurrentPlanSnapshot` (part_002 lines 3182-3215). -/
def persistCurrentPlanSnapshot (nowStr : String) (nextCheckCount nextViolationStreak : ℕ)
    (st : CheckState) : CheckState :=
  match st.currentPlanId with
  | none => st
  | some pid =>
    { st with plans := st.plans.map fun plan =>
        if plan.id ≠ pid then plan
        else
          { plan with
            planIdentifier :=
              if st.planIdentifier.trim ≠ "" then st.planIdentifier.trim else "UNASSIGNED"
            planDomain := st.planDomain.trim
            contractDocuments := st.contractDocuments
            regime := st.activeRegime
            structuralMode := st.structuralMode
            hardBoundary := st.hardBoundary
            softObjective := st.softObjective
            resourceConstraint := st.resourceConstraint
            couplings := st.couplings
            checkCount := nextCheckCount
            violationStreak := nextViolationStreak
            updatedAt := nowStr
            lastSnapshot :=
              { stability := st.snapshot.stability
                intervention := st.snapshot.intervention
                remainingMargin := st.snapshot.remainingMargin } } }

/-- `runDeterministicCheck` (part_002 lines 3217-3236). -/
def runDeterministicCheck (nowStr : String) (stateCriteria : List String)
    (st : CheckState) : CheckState :=
  let violation : Bool := st.snapshot.intervention != .CONTINUE
  let nextCheckCount := st.checkCount + 1
  let nextViolationStreak := if violation then st.violationStreak + 1 else 0
  let st1 := { st with checkCount := nextCheckCount, violationStreak := nextViolationStreak }
  let st2 := if violation ∧ 2 ≤ nextViolationStreak then
      { st1 with showInterventionModal := true }
    else st1
  let feedback :=
    if violation then
      "Deterministic check #" ++ toString nextCheckCount ++ " complete. State: " ++
        interventionLabel st.snapshot.intervention ++ ". Criteria: " ++
        stateCriteria.headD "Structural pressure detected." ++ " Persistence streak: " ++
        toString nextViolationStreak ++ "."
    else
      "Deterministic check #" ++ toString nextCheckCount ++
        " complete. State remains CONTINUE. Criteria: " ++
        stateCriteria.headD "No elevated structural pressure detected."
  persistCurrentPlanSnapshot nowStr nextCheckCount nextViolationStreak
    { st2 with checkFeedback := feedback }

/-- `applyInterventionChoice` (part_002 lines 3238-3245): the user acknowledges
the escalation dialog. -/
def applyInterventionChoice (nowStr : String) (st : CheckState) : CheckState :=
  let nextCheckCount := st.checkCount + 1
  let st1 :=
    { st with
      showInterventionModal := false
      violationStreak := 0
      checkCount := nextCheckCount
      checkFeedback :=
        "Intervention acknowledged. Check counter updated to " ++ toString nextCheckCount ++ "." }
  persistCurrentPlanSnapshot nowStr nextCheckCount 0 st1

/-- A check "triggers a user-facing escalation" when it flips the
`showInterventionModal` cell from `false` to `true`. -/
def checkTriggers (nowStr : String) (stateCriteria : List String) (st : CheckState) : Bool :=
  ! st.showInterventionModal &&
    (runDeterministicCheck nowStr stateCriteria st).showInterventionModal

/-- Replace the current Snapshot's intervention state: models the scoring
engine producing the given intervention for the next check. -/
def setIntervention (st : CheckState) (i : InterventionState) : CheckState :=
  { st with snapshot := { st.snapshot with intervention := i } }

/-- Run a sequence of deterministic checks whose Snapshots carry the listed
intervention states, recording for each check whether it triggered a
user-facing escalation. -/
def runCheckSeq (nowStr : String) (stateCriteria : List String) (st : CheckState) :
    List InterventionState → List Bool
  | [] => []
  | i :: rest =>
    let st' := setIntervention st i
    checkTriggers nowStr stateCriteria st' ::
      runCheckSeq nowStr stateCriteria (runDeterministicCheck nowStr stateCriteria st') rest

/-- A concrete Snapshot value, for concrete runs of the state machine. -/
def initialSnapshot : Snapshot :=
  { remainingMargin := "--"
    capacityLevel := "Nominal"
    uncertaintyEnvelope := "WIDE"
    regimeClassification := "HARD REGIME"
    intervention := .CONTINUE
    stability := .stable
    boundaryScore := 78
    capacityScore := 78
    uncertaintyScore := 78
    overallIndex := 78
    documentCoverage := 0
    documentLinked := 0
    documentExpected := 0
    documentReadinessLabel := "" }

/-- A concrete freshly-activated component state (`checkCount` and
`violationStreak` reset to 0, no escalation dialog shown). -/
def initialCheckState : CheckState :=
  { checkCount := 0
    violationStreak := 0
    showInterventionModal := false
    checkFeedback := ""
    plans := []
    currentPlanId := none
    planIdentifier := ""
    planDomain := ""
    contractDocuments := []
    activeRegime := .hard
    structuralMode := .automatic
    hardBoundary := ""
    softObjective := ""
    resourceConstraint := ""
    couplings := fun _ => false
    snapshot := initialSnapshot }

/-! ## Planner signal failure/decay policy (part_002 lines 2591-2637)

The `useState` cells and the `plannerLastKnownRef` ref touched by
`refreshPlannerSignal` form a `PlannerFeedState`; the awaited result of
`adapter.fetchSignals` is passed in as an explicit `FetchOutcome`. -/

structure PlannerFeedState where
  plannerSignal : Option PlannerSignal
  lastKnown : Option PlannerSignal
  weight : ℚ
  status : PlannerStatus
  warning : String
deriving DecidableEq, Repr

/-- The result of the awaited adapter fetch: a signal, or a thrown error whose
message is `detail` (part_002 line 2623). -/
inductive FetchOutcome
  | ok (signal : PlannerSignal)
  | failed (detail : String)
deriving DecidableEq, Repr

/-- `refreshPlannerSignal` (part_002 lines 2591-2637), as a transition on the
planner feed state.  The transient `loading` status set before the `try` block
is subsumed by the final state of the same invocation. -/
def refreshPlannerSignal (consentAccepted plannerCoupled adapterPresent : Bool)
    (outcome : FetchOutcome) (st : PlannerFeedState) : PlannerFeedState :=
  if ¬ consentAccepted ∨ ¬ plannerCoupled then { st with status := .inactive, warning := "" }
  else if ¬ adapterPresent then
    { st with status := .inactive, warning := "Planner feed configured but not connected." }
  else
    match outcome with
    | .ok signal =>
      { plannerSignal := some signal
        lastKnown := some signal
        weight := 1
        status := .ready
        warning := "" }
    | .failed detail =>
      match st.lastKnown with
      | some fallbackSignal =>
        { st with
          plannerSignal := some fallbackSignal
          weight := clamp (st.weight * (4/5)) (1/5) 1
          status := .plannerError
          warning := detail ++ " Using last known planner signal with decayed influence." }
      | none =>
        { st with
          plannerSignal := some DEFAULT_PLANNER_SIGNAL
          weight := 1/5
          status := .plannerError
          warning := detail }

/-- One fetch-failure step of the live planner feed (consent given, coupling
enabled, adapter constructed, fetch throws). -/
def plannerFailStep (detail : String) (st : PlannerFeedState) : PlannerFeedState :=
  refreshPlannerSignal true true true (.failed detail) st

/-! ## Boarding-pass extractor (part_002 lines 1371-1591)

The regular-expression searches of the extractor are hand-translated into
explicit left-to-right scanners over `List Char`, reproducing the JavaScript
engine's leftmost-match rule and backtracking order: greedy quantifiers try the
longest alternative first, lazy quantifiers the shortest, and alternations are
tried left to right.  Case-insensitive matching is modelled by upper-casing
(all patterns involved are ASCII). -/

/-- JavaScript's `\s` class (whitespace). -/
def isJsWs (c : Char) : Bool := c.isWhitespace

/-- `[A-Z]`. -/
def isUpperAZ (c : Char) : Bool := 'A' ≤ c && c ≤ 'Z'

/-- `[A-Z0-9]`. -/
def isUpperAlnum (c : Char) : Bool := isUpperAZ c || c.isDigit

/-- The separator class `[:=\s-]`. -/
def isSepChar (c : Char) : Bool := c = ':' || c = '=' || c = '-' || isJsWs c

/-- Hour alternative `[01]\d`. -/
def hourOk01 (h1 h2 : Char) : Bool := (h1 = '0' || h1 = '1') && h2.isDigit

/-- Hour alternative `([01]\d|2[0-3])`. -/
def fullHourOk (h1 h2 : Char) : Bool := hourOk01 h1 h2 || (h1 = '2' && ('0' ≤ h2 && h2 ≤ '3'))

/-- Minute `[0-5]\d`. -/
def minuteOk (m1 m2 : Char) : Bool := ('0' ≤ m1 && m1 ≤ '5') && m2.isDigit

/-- `normalizeHhmm` (part_002 lines 1379-1396): accept an anchored `HH:MM` or
`HHMM` (hours `00`-`23`, minutes `00`-`59`) and return `HH:MM`. -/
def normalizeHhmm (rawValue : String) : Option String :=
  let value := rawValue.trim
  match value.toList with
  | [h1, h2, ':', m1, m2] =>
    if fullHourOk h1 h2 && minuteOk m1 m2 then some (String.mk [h1, h2, ':', m1, m2]) else none
  | [h1, h2, m1, m2] =>
    if fullHourOk h1 h2 && minuteOk m1 m2 then some (String.mk [h1, h2, ':', m1, m2]) else none
  | _ => none

/-- The date half of the fallback used by `buildBoundaryDateTime`
(part_002 line 1423): `fallbackHardBoundary.split("T")[0] || formatDateOnlyLocal(new Date())`. -/
def fallbackDatePart (env : JsDateEnv) (fallbackHardBoundary : String) : String :=
  let s := (fallbackHardBoundary.splitOn "T").headD ""
  if s = "" then env.todayDateOnly else s

/-- The time half of the fallback used by `buildBoundaryDateTime`
(part_002 line 1424): `normalizeHhmm(split("T")[1]?.slice(0, 5) ?? "") || "12:00"`. -/
def fallbackTimePart (fallbackHardBoundary : String) : String :=
  let seg := ((fallbackHardBoundary.splitOn "T")[1]?).getD ""
  (normalizeHhmm (seg.take 5)).getD "12:00"

/-- `buildBoundaryDateTime` (part_002 lines 1414-1429). -/
def buildBoundaryDateTime (env : JsDateEnv) (dateLocal timeLocal : Option String)
    (fallbackHardBoundary : String) : Option String :=
  if dateLocal = none ∧ timeLocal = none then none
  else
    let datePart := dateLocal.getD (fallbackDatePart env fallbackHardBoundary)
    let timePart := timeLocal.getD (fallbackTimePart fallbackHardBoundary)
    some (datePart ++ "T" ++ timePart)

/-- `shiftLocalMinutes` (part_002 lines 1431-1440): `Date` round-trip through
the ambient environment. -/
def shiftLocalMinutes (env : JsDateEnv) (dateTimeLocal : Option String) (minutes : ℤ) :
    Option String :=
  match dateTimeLocal with
  | none => none
  | some s =>
    match env.parseMs s with
    | none => none
    | some t => some (env.formatDateTimeLocalMs (t + minutes * 60000))

/-- Collapse every whitespace run to a single space (`replace(/\s+/g, " ")`). -/
def collapseWsFold (cs : List Char) : List Char :=
  cs.foldr
    (fun c acc =>
      if isJsWs c then
        match acc with
        | ' ' :: _ => acc
        | _ => ' ' :: acc
      else c :: acc)
    []

/-- `previewPayload` (part_002 lines 1461-1467). -/
def previewPayload (raw : String) : String :=
  let compact := (String.mk (collapseWsFold raw.toList)).trim
  if compact.length ≤ 84 then compact else compact.take 84 ++ "…"

/-- Strip an expected literal word from the head of the input, returning the
remainder on success. -/
def stripLiteral : List Char → List Char → Option (List Char)
  | cs, [] => some cs
  | [], _ :: _ => none
  | c :: cs, k :: ks => if c = k then stripLiteral cs ks else none

/-- Maximal munch of the separator class `[:=\s-]*` (its characters are
disjoint from every continuation used below, so no backtracking arises). -/
def dropSeps (cs : List Char) : List Char := cs.dropWhile isSepChar

/-- First success of `f` over `l`, in order: models ordered alternation. -/
def firstSome (l : List α) (f : α → Option β) : Option β := (l.filterMap f).head?

/-- The keyword alternation `(?:BOARD(?:ING)?|BRD|BT|DEP(?:ARTURE)?)` in its
backtracking order (each greedy optional suffix tried first). -/
def timeKeywordCandidates : List (List Char) :=
  ["BOARDING".toList, "BOARD".toList, "BRD".toList, "BT".toList,
    "DEPARTURE".toList, "DEP".toList]

/-- The capture `([01]\d[0-5]\d)` at the head of the input. -/
def grabCompactTime : List Char → Option (List Char)
  | h1 :: h2 :: m1 :: m2 :: _ =>
    if hourOk01 h1 h2 && minuteOk m1 m2 then some [h1, h2, m1, m2] else none
  | _ => none

/-- The capture `([01]\d:[0-5]\d)` at the head of the input. -/
def grabColonTime : List Char → Option (List Char)
  | h1 :: h2 :: ':' :: m1 :: m2 :: _ =>
    if hourOk01 h1 h2 && minuteOk m1 m2 then some [h1, h2, ':', m1, m2] else none
  | _ => none

/-- One keyword-prefixed time pattern of `extractBoardingTimeHeuristic`
tried at the current position. -/
def timeMatchAtPos (grab : List Char → Option (List Char)) (cs : List Char) :
    Option (List Char) :=
  firstSome timeKeywordCandidates fun k =>
    match stripLiteral cs k with
    | some rest => grab (dropSeps rest)
    | none => none

/-- Leftmost match of one keyword-prefixed time pattern. -/
def scanForTime (grab : List Char → Option (List Char)) : List Char → Option (List Char)
  | [] => none
  | c :: rest =>
    match timeMatchAtPos grab (c :: rest) with
    | some g => some g
    | none => scanForTime grab rest

/-- The pattern loop of `extractBoardingTimeHeuristic` (part_002 lines
1442-1459): try the compact pattern, then the colon pattern, normalizing each
successful capture. -/
def tryTimePatterns (u : List Char) : Option String :=
  let second := (scanForTime grabColonTime u).bind fun g => normalizeHhmm (String.mk g)
  match scanForTime grabCompactTime u with
  | some g =>
    match normalizeHhmm (String.mk g) with
    | some n => some n
    | none => second
  | none => second

/-- `extractBoardingTimeHeuristic` (part_002 lines 1442-1459); the `/i` flag is
modelled by upper-casing the input. -/
def extractBoardingTimeHeuristic (raw : String) : Option String :=
  tryTimePatterns (raw.toList.map Char.toUpper)

/-- The fixed-width pattern
`(20\d{2})[-∕](\d{2})[-∕](\d{2})[ T]([01]\d|2[0-3]):([0-5]\d)` at the current
position, returning the rebuilt date `g1-g2-g3` and time `g4:g5`. -/
def isoAt : List Char → Option (String × String)
  | '2' :: '0' :: y3 :: y4 :: s1 :: mo1 :: mo2 :: s2 :: d1 :: d2 :: sp :: h1 :: h2 :: ':' ::
      mi1 :: mi2 :: _ =>
    if (y3.isDigit && y4.isDigit) && (s1 = '-' || s1 = '/') && (mo1.isDigit && mo2.isDigit) &&
        (s2 = '-' || s2 = '/') && (d1.isDigit && d2.isDigit) && (sp = ' ' || sp = 'T') &&
        fullHourOk h1 h2 && minuteOk mi1 mi2 then
      some (String.mk ['2', '0', y3, y4, '-', mo1, mo2, '-', d1, d2],
        String.mk [h1, h2, ':', mi1, mi2])
    else none
  | _ => none

/-- Leftmost match of the ISO date-time pattern (part_002 line 1534). -/
def scanIso : List Char → Option (String × String)
  | [] => none
  | c :: rest =>
    match isoAt (c :: rest) with
    | some r => some r
    | none => scanIso rest

/-- The date part `(\d{2})[-∕](\d{2})[-∕](20\d{2})` at the current position,
returning the three captures and the remainder. -/
def slashDateAt : List Char → Option (String × String × String × List Char)
  | a1 :: a2 :: s1 :: b1 :: b2 :: s2 :: '2' :: '0' :: y3 :: y4 :: rest =>
    if (a1.isDigit && a2.isDigit) && (s1 = '-' || s1 = '/') && (b1.isDigit && b2.isDigit) &&
        (s2 = '-' || s2 = '/') && (y3.isDigit && y4.isDigit) then
      some (String.mk [a1, a2], String.mk [b1, b2], String.mk ['2', '0', y3, y4], rest)
    else none
  | _ => none

/-- `([01]\d|2[0-3]):([0-5]\d)` at the current position. -/
def timeAt : List Char → Option (String × String)
  | h1 :: h2 :: ':' :: m1 :: m2 :: _ =>
    if fullHourOk h1 h2 && minuteOk m1 m2 then some (String.mk [h1, h2], String.mk [m1, m2])
    else none
  | _ => none

/-- The lazy gap `.*?` followed by the time pattern: shortest gap first, and the
dot cannot cross a line terminator. -/
def lazyGapTime : List Char → Option (String × String)
  | [] => none
  | c :: rest =>
    match timeAt (c :: rest) with
    | some r => some r
    | none => if c = '\n' || c = '\r' then none else lazyGapTime rest

/-- Leftmost match of
`(\d{2})[-∕](\d{2})[-∕](20\d{2}).*?([01]\d|2[0-3]):([0-5]\d)`
(part_002 line 1535). -/
def scanSlash : List Char → Option (String × String × String × String × String)
  | [] => none
  | c :: rest =>
    match slashDateAt (c :: rest) with
    | some (g1, g2, g3, after) =>
      match lazyGapTime after with
      | some (hh, mm) => some (g1, g2, g3, hh, mm)
      | none => scanSlash rest
    | none => scanSlash rest

/-- Take exactly `n` characters all satisfying `pred`, with the remainder. -/
def takeExact (pred : Char → Bool) : ℕ → List Char → Option (List Char × List Char)
  | 0, rest => some ([], rest)
  | _ + 1, [] => none
  | n + 1, c :: rest =>
    if pred c then (takeExact pred n rest).map (fun tr => (c :: tr.1, tr.2)) else none

/-- `\b` after a word character: end of input or a non-word character. -/
def boundaryOk : List Char → Bool
  | [] => true
  | c :: _ => ! isWordChar c

/-- Greedy bounded repetition: try the listed lengths in order, passing capture
and remainder to the continuation, backtracking to the next length on failure. -/
def tryLens (pred : Char → Bool) : List ℕ → List Char →
    (List Char → List Char → Option α) → Option α
  | [], _, _ => none
  | n :: ns, cs, k =>
    match takeExact pred n cs with
    | some (t, r) =>
      match k t r with
      | some a => some a
      | none => tryLens pred ns cs k
    | none => tryLens pred ns cs k

/-- Greedy `X?` for a single-character class: candidate remainders in
backtracking order (consume first, then don't). -/
def optTry (pred : Char → Bool) (cs : List Char) : List (List Char) :=
  match cs with
  | c :: rest => if pred c then [rest, cs] else [cs]
  | [] => [cs]

/-- The body of `/\b([A-Z0-9]{2,3})\s?-?\s?(\d{1,4})\b/` at the current
position (the leading `\b` is checked by the scanner). -/
def flightAt (cs : List Char) : Option (String × String) :=
  tryLens isUpperAlnum [3, 2] cs fun g1 rest1 =>
    firstSome (optTry isJsWs rest1) fun rest2 =>
      firstSome (optTry (· = '-') rest2) fun rest3 =>
        firstSome (optTry isJsWs rest3) fun rest4 =>
          tryLens Char.isDigit [4, 3, 2, 1] rest4 fun g2 rest5 =>
            if boundaryOk rest5 then some (String.mk g1, String.mk g2) else none

/-- Leftmost match of the flight-number pattern (part_002 line 1550), tracking
whether the previous character was a word character for the leading `\b`. -/
def scanFlight : Bool → List Char → Option (String × String)
  | _, [] => none
  | prevWord, c :: rest =>
    match (if prevWord then none else flightAt (c :: rest)) with
    | some r => some r
    | none => scanFlight (isWordChar c) rest

/-- The keyword alternation `(?:PNR|BOOK(?:ING)?|REF(?:ERENCE)?)` in its
backtracking order. -/
def bookingKeywordCandidates : List (List Char) :=
  ["PNR".toList, "BOOKING".toList, "BOOK".toList, "REFERENCE".toList, "REF".toList]

/-- The body of `/\b(?:PNR|BOOK(?:ING)?|REF(?:ERENCE)?)[:=\s-]*([A-Z0-9]{5,8})\b/`
at the current position. -/
def bookingAt (cs : List Char) : Option String :=
  firstSome bookingKeywordCandidates fun k =>
    match stripLiteral cs k with
    | none => none
    | some rest =>
      tryLens isUpperAlnum [8, 7, 6, 5] (dropSeps rest) fun g r =>
        if boundaryOk r then some (String.mk g) else none

/-- Leftmost match of the booking-reference pattern (part_002 line 1551). -/
def scanBooking : Bool → List Char → Option String
  | _, [] => none
  | prevWord, c :: rest =>
    match (if prevWord then none else bookingAt (c :: rest)) with
    | some r => some r
    | none => scanBooking (isWordChar c) rest

/-- All non-overlapping matches of `/\b[A-Z]{3}\b/g` (part_002 line 1552), left
to right, resuming after each match as `matchAll` does. -/
def scanAirports : Bool → List Char → List String
  | _, [] => []
  | _, [_] => []
  | _, [_, _] => []
  | prevWord, c :: b :: d :: r =>
    if ! prevWord && isUpperAZ c && isUpperAZ b && isUpperAZ d && boundaryOk r then
      String.mk [c, b, d] :: scanAirports true r
    else scanAirports (isWordChar c) (b :: d :: r)

/-! ## The extractor proper -/

structure BoardingPassExtraction where
  sourceFormat : SourceFormat
  flightNumber : Option String
  departureAirport : Option String
  arrivalAirport : Option String
  bookingReference : Option String
  departureDateLocal : Option String
  departureTimeLocal : Option String
  boundaryDateTimeLocal : Option String
  suggestedArrivalByLocal : Option String
  notes : List String
  rawPreview : String
deriving DecidableEq, Repr

def genericDateNote : String := "Flight date not clearly encoded; keeping manual boundary date."

def genericTimeNote : String := "Flight time not clearly encoded; keeping manual boundary time."

def bcbpDateNote : String := "Flight date was not available in expected BCBP fields."

def bcbpTimeNote : String :=
  "Boarding/departure time was not encoded; retained manual time component."

/-- `parseGenericBoardingPayload` (part_002 lines 1530-1583). -/
def parseGenericBoardingPayload (env : JsDateEnv) (raw fallbackHardBoundary : String) :
    BoardingPassExtraction :=
  let upper := raw.toList.map Char.toUpper
  let dateTimePair : Option (String × String) :=
    match scanIso upper with
    | some dt => some dt
    | none =>
      match scanSlash upper with
      | some (g1, g2, g3, hh, mm) => some (g3 ++ "-" ++ g2 ++ "-" ++ g1, hh ++ ":" ++ mm)
      | none => none
  let departureDateLocal := dateTimePair.map (·.1)
  let departureTimeLocal :=
    match dateTimePair with
    | some dt => some dt.2
    | none => extractBoardingTimeHeuristic (String.mk upper)
  let flightMatch := scanFlight false upper
  let bookingMatch := scanBooking false upper
  let airportMatches := scanAirports false upper
  let boundaryDateTimeLocal :=
    buildBoundaryDateTime env departureDateLocal departureTimeLocal fallbackHardBoundary
  let notes :=
    (if departureDateLocal = none then [genericDateNote] else []) ++
      (if departureTimeLocal = none then [genericTimeNote] else [])
  { sourceFormat := .generic
    flightNumber := flightMatch.map fun g => g.1 ++ g.2
    departureAirport := airportMatches[0]?
    arrivalAirport := airportMatches[1]?
    bookingReference := bookingMatch
    departureDateLocal := departureDateLocal
    departureTimeLocal := departureTimeLocal
    boundaryDateTimeLocal := boundaryDateTimeLocal
    suggestedArrivalByLocal := shiftLocalMinutes env boundaryDateTimeLocal (-120)
    notes := notes
    rawPreview := previewPayload raw }

/-- `cs.slice(a, b)` on character lists. -/
def sliceChars (cs : List Char) (a b : ℕ) : List Char := (cs.drop a).take (b - a)

/-- Decimal value of a digit string (`Number` on an all-digit string; `0` for
the empty string). -/
def natOfDigits (ds : List Char) : ℕ :=
  ds.foldl (fun acc c => acc * 10 + (c.toNat - '0'.toNat)) 0

/-- `parseBcbpPayload` (part_002 lines 1469-1528). -/
def parseBcbpPayload (env : JsDateEnv) (raw fallbackHardBoundary : String) :
    Option BoardingPassExtraction :=
  let compact := (raw.toList.filter fun c => ! isJsWs c).map Char.toUpper
  if compact.length < 60 then none
  else
    match compact[1]? with
    | none => none
    | some legChar =>
      if ! legChar.isDigit then none
      else if legChar.toNat - '0'.toNat < 1 then none
      else
        let departureAirport := (sliceChars compact 30 33).filter isUpperAZ
        let arrivalAirport := (sliceChars compact 33 36).filter isUpperAZ
        let carrier := (sliceChars compact 36 39).filter isUpperAlnum
        let flightNumberRaw := (sliceChars compact 39 44).filter Char.isDigit
        let bookingReference := (sliceChars compact 23 30).filter isUpperAlnum
        let julianRaw := (sliceChars compact 44 47).filter Char.isDigit
        if departureAirport = [] ∨ arrivalAirport = [] ∨ carrier = [] then none
        else
          let julianDay := natOfDigits julianRaw
          let departureDateLocal :=
            if 1 ≤ julianDay ∧ julianDay ≤ 366 then some (env.julianDateOnly julianDay)
            else none
          let departureTimeLocal := extractBoardingTimeHeuristic raw
          let flightNumber :=
            if flightNumberRaw ≠ [] then
              String.mk carrier ++
                (if natOfDigits flightNumberRaw = 0 then String.mk flightNumberRaw
                 else toString (natOfDigits flightNumberRaw))
            else String.mk carrier
          let notes :=
            (if departureDateLocal = none then [bcbpDateNote] else []) ++
              (if departureTimeLocal = none then [bcbpTimeNote] else [])
          let boundaryDateTimeLocal :=
            buildBoundaryDateTime env departureDateLocal departureTimeLocal fallbackHardBoundary
          some
            { sourceFormat := .bcbp
              flightNumber := some flightNumber
              departureAirport := some (String.mk departureAirport)
              arrivalAirport := some (String.mk arrivalAirport)
              bookingReference :=
                if bookingReference ≠ [] then some (String.mk bookingReference) else none
              departureDateLocal := departureDateLocal
              departureTimeLocal := departureTimeLocal
              boundaryDateTimeLocal := boundaryDateTimeLocal
              suggestedArrivalByLocal := shiftLocalMinutes env boundaryDateTimeLocal (-120)
              notes := notes
              rawPreview := previewPayload raw }

/-- `parseBoardingPassPayload` (part_002 lines 1585-1591). -/
def parseBoardingPassPayload (env : JsDateEnv) (raw fallbackHardBoundary : String) :
    BoardingPassExtraction :=
  match parseBcbpPayload env raw fallbackHardBoundary with
  | some bcbp => bcbp
  | none => parseGenericBoardingPayload env raw fallbackHardBoundary

/-! ## Auxiliary definitions for the verification -/

/-- All three sub-score variables lie within the clamp range `[5, 95]`. -/
def SubScoresIn (s : SubScores) : Prop :=
  5 ≤ s.b ∧ s.b ≤ 95 ∧ 5 ≤ s.c ∧ s.c ≤ 95 ∧ 5 ≤ s.u ∧ s.u ≤ 95

/-- A concrete ambient date environment, for instantiating theorems on
concrete inputs. -/
def sampleDateEnv : JsDateEnv :=
  { parseDeadlineMs := fun _ => none
    todayDateOnly := "2025-01-01"
    julianDateOnly := fun _ => "2025-02-14"
    parseMs := fun _ => none
    formatDateTimeLocalMs := fun _ => "2025-01-01T00:00" }

/-- A concrete planner feed state with a last known good reading and full
weight, for instantiating theorems on concrete inputs. -/
def witnessFeedState : PlannerFeedState :=
  { plannerSignal := none
    lastKnown := some DEFAULT_PLANNER_SIGNAL
    weight := 1
    status := .ready
    warning := "" }

/-! ## Basic clamp lemmas -/

theorem clamp_le (value lo hi : ℚ) : clamp value lo hi ≤ hi := min_le_left _ _

theorem le_clamp (value lo hi : ℚ) (h : lo ≤ hi) : lo ≤ clamp value lo hi :=
  le_min h (le_max_left _ _)

theorem h595 : (5 : ℚ) ≤ 95 := by norm_num

theorem clamp_eq_self (x lo hi : ℚ) (h1 : lo ≤ x) (h2 : x ≤ hi) : clamp x lo hi = x := by
  unfold clamp; rw [max_eq_right h1, min_eq_right h2]

/-! ## The intervention mapping of the scoring engine (claim C1) -/

/-- Claim C1: for every input to the scoring engine, the intervention state is
determined by the aggregate index and the regime alone: aggregate ≥ 70 gives
CONTINUE; 52 ≤ aggregate < 70 gives DEVIATE; aggregate < 52 gives PLAN B under
the hard regime and PAUSE under the soft or resource regime. -/
theorem C1_intervention_thresholds (env : JsDateEnv) (p : SnapshotParams) :
    (buildSnapshot env p).intervention =
      (if 70 ≤ (buildSnapshot env p).overallIndex then InterventionState.CONTINUE
       else if 52 ≤ (buildSnapshot env p).overallIndex then .DEVIATE
       else if p.regime = .hard then .PLANB
       else .PAUSE) := rfl

/-! ## The clamp invariant of the scoring engine (claim C4) -/

theorem initial_in (env : JsDateEnv) (p : SnapshotParams) :
    SubScoresIn (initialSubScores env p) :=
  ⟨le_clamp _ _ _ h595, clamp_le _ _ _, le_clamp _ _ _ h595, clamp_le _ _ _,
    le_clamp _ _ _ h595, clamp_le _ _ _⟩

theorem weather_in (p : SnapshotParams) (s : SubScores) (h : SubScoresIn s) :
    SubScoresIn (applyWeatherBlock p s) := by
  obtain ⟨h1, h2, h3, h4, h5, h6⟩ := h
  unfold applyWeatherBlock
  repeat' split
  all_goals refine ⟨?_, ?_, ?_, ?_, ?_, ?_⟩
  all_goals first
    | with_reducible exact le_clamp _ _ _ h595
    | with_reducible exact clamp_le _ _ _
    | with_reducible assumption

theorem doc_in (p : SnapshotParams) (s : SubScores) (h : SubScoresIn s) :
    SubScoresIn (applyDocBlock p s) := by
  obtain ⟨h1, h2, h3, h4, h5, h6⟩ := h
  unfold applyDocBlock
  dsimp only
  split_ifs
  all_goals refine ⟨?_, ?_, ?_, ?_, ?_, ?_⟩
  all_goals first
    | with_reducible exact le_clamp _ _ _ h595
    | with_reducible exact clamp_le _ _ _
    | with_reducible assumption

theorem planner_in (p : SnapshotParams) (s : SubScores) (h : SubScoresIn s) :
    SubScoresIn (applyPlannerBlock p s) := by
  obtain ⟨h1, h2, h3, h4, h5, h6⟩ := h
  unfold applyPlannerBlock
  repeat' split
  all_goals refine ⟨?_, ?_, ?_, ?_, ?_, ?_⟩
  all_goals first
    | with_reducible exact le_clamp _ _ _ h595
    | with_reducible exact clamp_le _ _ _
    | with_reducible assumption

theorem geo_in (p : SnapshotParams) (s : SubScores) (h : SubScoresIn s) :
    SubScoresIn (applyGeoBlock p s) := by
  obtain ⟨h1, h2, h3, h4, h5, h6⟩ := h
  unfold applyGeoBlock
  repeat' split
  all_goals refine ⟨?_, ?_, ?_, ?_, ?_, ?_⟩
  all_goals first
    | with_reducible exact le_clamp _ _ _ h595
    | with_reducible exact clamp_le _ _ _
    | with_reducible assumption

theorem final_in (env : JsDateEnv) (p : SnapshotParams) :
    SubScoresIn (finalSubScores env p) :=
  geo_in p _ (planner_in p _ (doc_in p _ (weather_in p _ (initial_in env p))))

/-- Claim C4: for every combination of scoring-engine inputs, each of the
boundary, capacity and uncertainty sub-scores and the aggregate overall index
of the returned Snapshot lies within `[5, 95]`, and the aggregate equals the
mean of the three sub-scores clamped to that range. -/
theorem C4_scores_clamped (env : JsDateEnv) (p : SnapshotParams) :
    (5 ≤ (buildSnapshot env p).boundaryScore ∧ (buildSnapshot env p).boundaryScore ≤ 95) ∧
    (5 ≤ (buildSnapshot env p).capacityScore ∧ (buildSnapshot env p).capacityScore ≤ 95) ∧
    (5 ≤ (buildSnapshot env p).uncertaintyScore ∧ (buildSnapshot env p).uncertaintyScore ≤ 95) ∧
    (5 ≤ (buildSnapshot env p).overallIndex ∧ (buildSnapshot env p).overallIndex ≤ 95) ∧
    (buildSnapshot env p).overallIndex =
      clamp (((buildSnapshot env p).boundaryScore + (buildSnapshot env p).capacityScore +
        (buildSnapshot env p).uncertaintyScore) / 3) 5 95 := by
  obtain ⟨h1, h2, h3, h4, h5, h6⟩ := final_in env p
  exact ⟨⟨h1, h2⟩, ⟨h3, h4⟩, ⟨h5, h6⟩, ⟨le_clamp _ _ _ h595, clamp_le _ _ _⟩, rfl⟩

/-! ## Document readiness coverage (claim C3) -/

theorem filter_length_split (p : α → Bool) (l : List α) :
    (l.filter p).length + (l.filter fun a => ! p a).length = l.length := by
  induction l with
  | nil => rfl
  | cons a t ih => cases h : p a <;> simp [List.filter_cons, h] <;> omega

theorem filter_pos_iff_any (p : α → Bool) (l : List α) :
    0 < (l.filter p).length ↔ l.any p = true := by
  induction l with
  | nil => simp
  | cons a t ih => cases h : p a <;> simp [List.filter_cons, h, ih]

/-- Claim C3, counterexample: with no documents and no suggestions there is no
required suggestion type and no linked document, yet the computed coverage is
3/4, not 0 as the claim states. -/
theorem C3_coverage_counterexample :
    (deriveDocumentReadiness [] []).expectedCount = 0 ∧
    (deriveDocumentReadiness [] []).linkedTotalCount = 0 ∧
    ¬ ((deriveDocumentReadiness [] []).coverage = 0) := by
  refine ⟨rfl, rfl, ?_⟩
  have h : (deriveDocumentReadiness [] []).coverage = clamp (3/4) 0 1 := rfl
  rw [h, clamp, max_eq_right (by norm_num), min_eq_right (by norm_num)]
  norm_num

/-- Claim C3 as amended: for every list of documents and every list of
suggestions, `deriveDocumentReadiness` computes coverage as (count of required
suggestion types that have a linked document) divided by (count of required
suggestion types) when at least one required type exists; when no required
type exists, coverage is 1 if any linked document exists and 0.75 otherwise;
coverage is clamped to `[0, 1]`. -/
theorem C3_coverage_amended (documents : List ContractDocument)
    (suggestions : List DocumentSuggestion) :
    (0 ≤ (deriveDocumentReadiness documents suggestions).coverage ∧
      (deriveDocumentReadiness documents suggestions).coverage ≤ 1) ∧
    (deriveDocumentReadiness documents suggestions).coverage =
      (if 0 < (dedupFirst ((suggestions.filter (·.required)).map (·.docType))).length then
        (((dedupFirst ((suggestions.filter (·.required)).map (·.docType))).filter fun t =>
            ((documents.filter hasDocumentSignal).map (·.docType)).contains t).length : ℚ) /
          ((dedupFirst ((suggestions.filter (·.required)).map (·.docType))).length : ℚ)
      else if documents.any hasDocumentSignal then 1 else 3/4) := by
  set lt := (documents.filter hasDocumentSignal).map (·.docType) with hlt
  set et := dedupFirst ((suggestions.filter (·.required)).map (·.docType)) with het
  set miss := et.filter (fun t => ! lt.contains t) with hmiss
  set lr := et.filter (fun t => lt.contains t) with hlr
  have hsum : lr.length + miss.length = et.length := filter_length_split _ et
  have hcov : (deriveDocumentReadiness documents suggestions).coverage =
      clamp (if 0 < et.length then ((et.length - miss.length : ℕ) : ℚ) / (et.length : ℚ)
        else if 0 < (documents.filter hasDocumentSignal).length then 1 else 3/4) 0 1 := rfl
  have hle : lr.length ≤ et.length := List.length_filter_le _ _
  have hlinked : et.length - miss.length = lr.length := by omega
  rw [hcov, hlinked]
  have h0 : (0 : ℚ) ≤ (if 0 < et.length then ((lr.length : ℕ) : ℚ) / (et.length : ℚ)
      else if 0 < (documents.filter hasDocumentSignal).length then 1 else 3/4) := by
    split_ifs <;> positivity
  have h1 : (if 0 < et.length then ((lr.length : ℕ) : ℚ) / (et.length : ℚ)
      else if 0 < (documents.filter hasDocumentSignal).length then 1 else 3/4) ≤ 1 := by
    split_ifs with hpos hany
    · rw [div_le_one (by exact_mod_cast hpos)]
      exact_mod_cast hle
    · norm_num
    · norm_num
  rw [clamp_eq_self _ _ _ h0 h1]
  refine ⟨⟨h0, h1⟩, ?_⟩
  by_cases hpos : 0 < et.length
  · rw [if_pos hpos, if_pos hpos]
  · rw [if_neg hpos, if_neg hpos]
    by_cases hany : documents.any hasDocumentSignal = true
    · rw [if_pos ((filter_pos_iff_any _ _).mpr hany), if_pos hany]
    · rw [if_neg (fun hc => hany ((filter_pos_iff_any _ _).mp hc)), if_neg hany]

/-! ## Hard-regime required evidence (claim C8) -/

theorem inferFromFlags_hard_hasRequired : ∀ a b c d e f : Bool,
    ((inferFromFlags .hard ⟨a, b, c, d, e, f⟩).any (·.required)) = true := by decide

/-- Claim C8: for every context text and every value of the flight-context
flag, the document-suggestion inference under the hard regime returns at least
one suggestion marked required (a generic boundary-commitment document is
added as required when no keyword rule produced one). -/
theorem C8_hard_requires_evidence (contextText : String) (flightContextDetected : Bool) :
    ∃ s ∈ inferContractDocumentSuggestions .hard contextText flightContextDetected,
      s.required = true := by
  have h := inferFromFlags_hard_hasRequired
    (computeFlags contextText flightContextDetected).flight
    (computeFlags contextText flightContextDetected).eventCtx
    (computeFlags contextText flightContextDetected).hotelCtx
    (computeFlags contextText flightContextDetected).meetingCtx
    (computeFlags contextText flightContextDetected).visaCtx
    (computeFlags contextText flightContextDetected).transportCtx
  rw [List.any_eq_true] at h
  exact h

/-! ## The intervention state machine (claims C2 and C10) -/

theorem persist_showModal (n : String) (a b : ℕ) (st : CheckState) :
    (persistCurrentPlanSnapshot n a b st).showInterventionModal = st.showInterventionModal := by
  unfold persistCurrentPlanSnapshot; split <;> rfl

theorem persist_checkCount (n : String) (a b : ℕ) (st : CheckState) :
    (persistCurrentPlanSnapshot n a b st).checkCount = st.checkCount := by
  unfold persistCurrentPlanSnapshot; split <;> rfl

theorem persist_violationStreak (n : String) (a b : ℕ) (st : CheckState) :
    (persistCurrentPlanSnapshot n a b st).violationStreak = st.violationStreak := by
  unfold persistCurrentPlanSnapshot; split <;> rfl

theorem persist_snapshot (n : String) (a b : ℕ) (st : CheckState) :
    (persistCurrentPlanSnapshot n a b st).snapshot = st.snapshot := by
  unfold persistCurrentPlanSnapshot; split <;> rfl

theorem runCheck_checkCount (n : String) (cr : List String) (st : CheckState) :
    (runDeterministicCheck n cr st).checkCount = st.checkCount + 1 := by
  unfold runDeterministicCheck
  dsimp only
  rw [persist_checkCount]
  split_ifs <;> rfl

theorem runCheck_snapshot (n : String) (cr : List String) (st : CheckState) :
    (runDeterministicCheck n cr st).snapshot = st.snapshot := by
  unfold runDeterministicCheck
  dsimp only
  rw [persist_snapshot]
  split_ifs <;> rfl

theorem runCheck_violationStreak (n : String) (cr : List String) (st : CheckState) :
    (runDeterministicCheck n cr st).violationStreak =
      (if st.snapshot.intervention != InterventionState.CONTINUE then st.violationStreak + 1
       else 0) := by
  unfold runDeterministicCheck
  dsimp only
  rw [persist_violationStreak]
  split_ifs <;> rfl

theorem runCheck_showModal (n : String) (cr : List String) (st : CheckState) :
    (runDeterministicCheck n cr st).showInterventionModal =
      (st.showInterventionModal ||
        ((st.snapshot.intervention != InterventionState.CONTINUE) &&
          decide (1 ≤ st.violationStreak))) := by
  unfold runDeterministicCheck
  dsimp only
  rw [persist_showModal]
  cases hv : st.snapshot.intervention != InterventionState.CONTINUE <;>
    simp only [hv, Bool.false_and, Bool.true_and, Bool.or_false] <;>
    split_ifs <;> simp_all

theorem checkTriggers_eq (n : String) (cr : List String) (st : CheckState) :
    checkTriggers n cr st =
      ((st.snapshot.intervention != InterventionState.CONTINUE) &&
        decide (1 ≤ st.violationStreak) && ! st.showInterventionModal) := by
  unfold checkTriggers
  rw [runCheck_showModal]
  cases hm : st.showInterventionModal <;>
    cases hv : st.snapshot.intervention != InterventionState.CONTINUE <;> simp [hm, hv]

theorem setIntervention_intervention (st : CheckState) (i : InterventionState) :
    (setIntervention st i).snapshot.intervention = i := rfl

theorem setIntervention_showModal (st : CheckState) (i : InterventionState) :
    (setIntervention st i).showInterventionModal = st.showInterventionModal := rfl

theorem setIntervention_violationStreak (st : CheckState) (i : InterventionState) :
    (setIntervention st i).violationStreak = st.violationStreak := rfl

theorem count_triggers_modalTrue (n : String) (cr : List String) :
    ∀ (k : ℕ) (st : CheckState), st.showInterventionModal = true →
      (runCheckSeq n cr st (List.replicate k .DEVIATE)).count true = 0 := by
  intro k
  induction k with
  | zero => intro st _; rfl
  | succ m ih =>
    intro st h
    rw [List.replicate_succ]
    show (checkTriggers n cr (setIntervention st .DEVIATE) ::
      runCheckSeq n cr (runDeterministicCheck n cr (setIntervention st .DEVIATE))
        (List.replicate m .DEVIATE)).count true = 0
    have ht : checkTriggers n cr (setIntervention st .DEVIATE) = false := by
      rw [checkTriggers_eq]
      simp [setIntervention_intervention, setIntervention_showModal,
        setIntervention_violationStreak, h]
    have hm : (runDeterministicCheck n cr (setIntervention st .DEVIATE)).showInterventionModal
        = true := by
      rw [runCheck_showModal]
      simp [setIntervention_intervention, setIntervention_showModal,
        setIntervention_violationStreak, h]
    rw [ht, List.count_cons]
    simp only [ih _ hm]
    rfl

theorem count_triggers_run (n : String) (cr : List String) (st : CheckState)
    (hm : st.showInterventionModal = false) (hs : st.violationStreak = 0) (k : ℕ) :
    (runCheckSeq n cr st (List.replicate k .DEVIATE)).count true =
      if 2 ≤ k then 1 else 0 := by
  match k with
  | 0 => rfl
  | 1 =>
    rw [List.replicate_succ]
    show (checkTriggers n cr (setIntervention st .DEVIATE) ::
      runCheckSeq n cr (runDeterministicCheck n cr (setIntervention st .DEVIATE))
        (List.replicate 0 .DEVIATE)).count true = _
    have ht : checkTriggers n cr (setIntervention st .DEVIATE) = false := by
      rw [checkTriggers_eq]
      simp [setIntervention_intervention, setIntervention_showModal,
        setIntervention_violationStreak, hs]
    rw [ht]
    rfl
  | (m + 2) =>
    have ht1 : checkTriggers n cr (setIntervention st .DEVIATE) = false := by
      rw [checkTriggers_eq]
      simp [setIntervention_intervention, setIntervention_showModal,
        setIntervention_violationStreak, hs]
    have hm1 : (runDeterministicCheck n cr (setIntervention st .DEVIATE)).showInterventionModal
        = false := by
      rw [runCheck_showModal]
      simp [setIntervention_intervention, setIntervention_showModal,
        setIntervention_violationStreak, hm, hs]
    have hs1 : (runDeterministicCheck n cr (setIntervention st .DEVIATE)).violationStreak
        = 1 := by
      rw [runCheck_violationStreak]
      simp [setIntervention_intervention, setIntervention_showModal,
        setIntervention_violationStreak, hs]
    have ht2 : checkTriggers n cr
        (setIntervention (runDeterministicCheck n cr (setIntervention st .DEVIATE)) .DEVIATE)
        = true := by
      rw [checkTriggers_eq]
      simp [setIntervention_intervention, setIntervention_showModal,
        setIntervention_violationStreak, hm1, hs1]
    have hm2 : (runDeterministicCheck n cr
        (setIntervention (runDeterministicCheck n cr (setIntervention st .DEVIATE)) .DEVIATE)
          ).showInterventionModal = true := by
      rw [runCheck_showModal]
      simp [setIntervention_intervention, setIntervention_showModal,
        setIntervention_violationStreak, hm1, hs1]
    rw [List.replicate_succ, List.replicate_succ]
    show (checkTriggers n cr (setIntervention st .DEVIATE) ::
      (checkTriggers n cr
          (setIntervention (runDeterministicCheck n cr (setIntervention st .DEVIATE)) .DEVIATE) ::
        runCheckSeq n cr
          (runDeterministicCheck n cr
            (setIntervention (runDeterministicCheck n cr (setIntervention st .DEVIATE)) .DEVIATE))
          (List.replicate m .DEVIATE))).count true = _
    rw [ht1, ht2, List.count_cons, List.count_cons,
      count_triggers_modalTrue n cr m _ hm2]
    simp

/-- Claim C2: escalation fires exactly once per violation run.  First: a check
triggers the escalation dialog exactly when the snapshot is in violation, the
previous streak was at least 1 (so the streak reaches 2), and the dialog is
not already shown — so checks while already escalated never re-trigger.
Second: from a non-escalated state with streak 0, a run of `k` consecutive
violating checks triggers exactly one escalation when `k ≥ 2` and none
otherwise.  Third: for the check sequence CONTINUE, DEVIATE, DEVIATE, DEVIATE,
escalation triggers on the third check and not again on the fourth. -/
theorem C2_escalation_fires_once :
    (∀ (nowStr : String) (criteria : List String) (st : CheckState),
      checkTriggers nowStr criteria st =
        ((st.snapshot.intervention != InterventionState.CONTINUE) &&
          decide (1 ≤ st.violationStreak) && ! st.showInterventionModal)) ∧
    (∀ (nowStr : String) (criteria : List String) (st : CheckState),
      st.showInterventionModal = false → st.violationStreak = 0 → ∀ k : ℕ,
        (runCheckSeq nowStr criteria st (List.replicate k .DEVIATE)).count true =
          if 2 ≤ k then 1 else 0) ∧
    runCheckSeq "2025-01-01T00:00:00.000Z" [] initialCheckState
        [.CONTINUE, .DEVIATE, .DEVIATE, .DEVIATE] = [false, false, true, false] :=
  ⟨checkTriggers_eq, fun n cr st hm hs k => count_triggers_run n cr st hm hs k, by rfl⟩

/-- Witness for C2: a concrete run of three consecutive DEVIATE checks from the
freshly-activated state triggers exactly one escalation. -/
theorem C2_escalation_fires_once_witness :
    (runCheckSeq "t" [] initialCheckState (List.replicate 3 .DEVIATE)).count true =
      if 2 ≤ 3 then 1 else 0 :=
  C2_escalation_fires_once.2.1 "t" [] initialCheckState rfl rfl 3

/-- Claim C10: acknowledging an escalation resets `violationStreak` to 0,
closes the escalation dialog, and increments `checkCount` by 1 (the same
counter a deterministic check increments), while leaving the Snapshot and all
plan configuration fields unchanged. -/
theorem C10_ack_frame (nowStr : String) (st : CheckState) :
    (applyInterventionChoice nowStr st).checkCount = st.checkCount + 1 ∧
    (applyInterventionChoice nowStr st).violationStreak = 0 ∧
    (applyInterventionChoice nowStr st).showInterventionModal = false ∧
    (applyInterventionChoice nowStr st).snapshot = st.snapshot ∧
    (applyInterventionChoice nowStr st).activeRegime = st.activeRegime ∧
    (applyInterventionChoice nowStr st).structuralMode = st.structuralMode ∧
    (applyInterventionChoice nowStr st).hardBoundary = st.hardBoundary ∧
    (applyInterventionChoice nowStr st).softObjective = st.softObjective ∧
    (applyInterventionChoice nowStr st).resourceConstraint = st.resourceConstraint ∧
    (applyInterventionChoice nowStr st).couplings = st.couplings ∧
    (applyInterventionChoice nowStr st).contractDocuments = st.contractDocuments ∧
    (applyInterventionChoice nowStr st).planIdentifier = st.planIdentifier ∧
    (applyInterventionChoice nowStr st).planDomain = st.planDomain ∧
    (∀ criteria, (runDeterministicCheck nowStr criteria st).checkCount = st.checkCount + 1) := by
  unfold applyInterventionChoice
  dsimp only
  unfold persistCurrentPlanSnapshot
  split <;>
    exact ⟨rfl, rfl, rfl, rfl, rfl, rfl, rfl, rfl, rfl, rfl, rfl, rfl, rfl,
      fun criteria => runCheck_checkCount nowStr criteria st⟩

/-! ## The planner failure/decay policy (claim C5) -/

theorem failStep_lastKnown (d : String) (st : PlannerFeedState) :
    (plannerFailStep d st).lastKnown = st.lastKnown := by
  unfold plannerFailStep refreshPlannerSignal
  cases h : st.lastKnown <;> simp [h]

theorem failStep_weight_some (d : String) (st : PlannerFeedState) (s : PlannerSignal)
    (h : st.lastKnown = some s) :
    (plannerFailStep d st).weight = clamp (st.weight * (4/5)) (1/5) 1 := by
  unfold plannerFailStep refreshPlannerSignal
  simp [h]

theorem failStep_signal_some (d : String) (st : PlannerFeedState) (s : PlannerSignal)
    (h : st.lastKnown = some s) :
    (plannerFailStep d st).plannerSignal = some s := by
  unfold plannerFailStep refreshPlannerSignal
  simp [h]

theorem failStep_weight_ge (d : String) (st : PlannerFeedState) :
    1/5 ≤ (plannerFailStep d st).weight := by
  unfold plannerFailStep refreshPlannerSignal
  cases h : st.lastKnown <;> simp [h]
  · exact le_clamp _ _ _ (by norm_num)

theorem decay_clamp_eq (w : ℚ) (hw : w ≤ 1) :
    clamp (w * (4/5)) (1/5) 1 = max (1/5) (w * (4/5)) := by
  unfold clamp
  rw [min_eq_right]
  apply max_le (by norm_num)
  nlinarith

/-- Claim C5: the planner failure/decay policy.  On a successful fetch the
reading is replaced, remembered as last-known, and the weight resets to 1.  On
a failed fetch with a previous reading, that reading is reused and the weight
is multiplied by 0.8 with a floor of 0.2.  On a failed fetch with no previous
reading, the all-zero default reading is used with weight 0.2.  Hence three
consecutive failures from weight 1.0 yield weight 0.8³ = 0.512, and the weight
never drops below the 0.2 floor. -/
theorem C5_planner_decay :
    (∀ (signal : PlannerSignal) (st : PlannerFeedState),
      refreshPlannerSignal true true true (.ok signal) st =
        { plannerSignal := some signal, lastKnown := some signal, weight := 1,
          status := .ready, warning := "" }) ∧
    (∀ (detail : String) (st : PlannerFeedState) (s : PlannerSignal),
      st.lastKnown = some s → st.weight ≤ 1 →
        (plannerFailStep detail st).plannerSignal = some s ∧
        (plannerFailStep detail st).weight = max (1/5) (st.weight * (4/5))) ∧
    (∀ (detail : String) (st : PlannerFeedState), st.lastKnown = none →
        (plannerFailStep detail st).plannerSignal = some DEFAULT_PLANNER_SIGNAL ∧
        (plannerFailStep detail st).weight = 1/5) ∧
    (DEFAULT_PLANNER_SIGNAL.totalTasks = 0 ∧ DEFAULT_PLANNER_SIGNAL.completedTasks = 0 ∧
      DEFAULT_PLANNER_SIGNAL.overdueTasks = 0 ∧ DEFAULT_PLANNER_SIGNAL.dueNext24h = 0) ∧
    (∀ (detail : String) (st : PlannerFeedState) (s : PlannerSignal),
      st.lastKnown = some s → st.weight = 1 →
        ((plannerFailStep detail)^[3] st).weight = 64/125) ∧
    (∀ (detail : String) (st : PlannerFeedState) (n : ℕ), 1 ≤ n →
        1/5 ≤ ((plannerFailStep detail)^[n] st).weight) := by
  refine ⟨?_, ?_, ?_, ⟨rfl, rfl, rfl, rfl⟩, ?_, ?_⟩
  · intro signal st
    unfold refreshPlannerSignal
    simp
  · intro detail st s h hw
    refine ⟨failStep_signal_some detail st s h, ?_⟩
    rw [failStep_weight_some detail st s h, decay_clamp_eq _ hw]
  · intro detail st h
    unfold plannerFailStep refreshPlannerSignal
    simp [h]
  · intro detail st s h hw
    have l1 : (plannerFailStep detail st).lastKnown = some s := by
      rw [failStep_lastKnown, h]
    have l2 : (plannerFailStep detail (plannerFailStep detail st)).lastKnown = some s := by
      rw [failStep_lastKnown, failStep_lastKnown, h]
    have w1 : (plannerFailStep detail st).weight = 4/5 := by
      rw [failStep_weight_some detail st s h, hw]
      unfold clamp
      rw [max_eq_right (by norm_num), min_eq_right (by norm_num)]
      norm_num
    have w2 : (plannerFailStep detail (plannerFailStep detail st)).weight = 16/25 := by
      rw [failStep_weight_some _ _ s l1, w1]
      unfold clamp
      rw [max_eq_right (by norm_num), min_eq_right (by norm_num)]
      norm_num
    show (plannerFailStep detail (plannerFailStep detail (plannerFailStep detail st))).weight
      = 64/125
    rw [failStep_weight_some _ _ s l2, w2]
    unfold clamp
    rw [max_eq_right (by norm_num), min_eq_right (by norm_num)]
    norm_num
  · intro detail st n hn
    match n, hn with
    | (m + 1), _ =>
      rw [Function.iterate_succ_apply']
      exact failStep_weight_ge detail _

/-- Witness for C5: three consecutive fetch failures from a concrete feed state
with weight 1 and a last known reading leave the weight at 64/125 = 0.512. -/
theorem C5_planner_decay_witness :
    ((plannerFailStep "x")^[3] witnessFeedState).weight = 64/125 :=
  C5_planner_decay.2.2.2.2.1 "x" witnessFeedState DEFAULT_PLANNER_SIGNAL rfl rfl

/-! ## The boundary timestamp combination (claim C6) -/

/-- Claim C6: for every raw payload and fallback boundary, the combined
boundary timestamp is non-null whenever at least one of the extracted date or
time halves is non-null: if both are present they are used directly; if
exactly one is present, the missing half is filled from the fallback boundary;
the result is null only when both halves are missing. -/
theorem C6_boundary_fill (env : JsDateEnv) (fb : String) :
    (∀ dd tt : String,
      buildBoundaryDateTime env (some dd) (some tt) fb = some (dd ++ "T" ++ tt)) ∧
    (∀ dd : String,
      buildBoundaryDateTime env (some dd) none fb = some (dd ++ "T" ++ fallbackTimePart fb)) ∧
    (∀ tt : String,
      buildBoundaryDateTime env none (some tt) fb =
        some (fallbackDatePart env fb ++ "T" ++ tt)) ∧
    buildBoundaryDateTime env none none fb = none ∧
    (∀ d t : Option String, buildBoundaryDateTime env d t fb = none → d = none ∧ t = none) := by
  refine ⟨?_, ?_, ?_, ?_, ?_⟩
  · intro dd tt; simp [buildBoundaryDateTime]
  · intro dd; simp [buildBoundaryDateTime]
  · intro tt; simp [buildBoundaryDateTime]
  · simp [buildBoundaryDateTime]
  · intro d t h
    cases d <;> cases t <;> simp_all [buildBoundaryDateTime]

/-- Witness for C6: the null-result characterization applied at the concrete
input where both halves are missing. -/
theorem C6_boundary_fill_witness : (none : Option String) = none ∧ (none : Option String) = none :=
  (C6_boundary_fill sampleDateEnv "").2.2.2.2 none none rfl

/-! ## Structural totality of the extractor (claim C7) -/

theorem generic_notes (env : JsDateEnv) (raw fb : String) :
    ((parseGenericBoardingPayload env raw fb).departureDateLocal = none →
      genericDateNote ∈ (parseGenericBoardingPayload env raw fb).notes) ∧
    ((parseGenericBoardingPayload env raw fb).departureTimeLocal = none →
      genericTimeNote ∈ (parseGenericBoardingPayload env raw fb).notes) := by
  unfold parseGenericBoardingPayload
  dsimp only
  constructor
  · intro h
    rw [if_pos h]
    simp
  · intro h
    rw [if_pos h]
    simp

theorem bcbp_notes (env : JsDateEnv) (raw fb : String) (b : BoardingPassExtraction)
    (h : parseBcbpPayload env raw fb = some b) :
    (b.departureDateLocal = none → bcbpDateNote ∈ b.notes) ∧
    (b.departureTimeLocal = none → bcbpTimeNote ∈ b.notes) := by
  unfold parseBcbpPayload at h
  dsimp only at h
  repeat' split at h
  all_goals try exact Option.noConfusion h
  all_goals
    injection h with h'
    subst h'
    dsimp only
    exact ⟨fun hd => by first | exact Option.noConfusion hd | contradiction | (simp; done),
      fun hd => by first | exact Option.noConfusion hd | contradiction | (simp; done)⟩

/-- Claim C7: the extractor is a total function — it is defined for every
input string and fallback boundary and always returns a structurally complete
`BoardingPassExtraction` (unrecovered fields are `none`) — and whenever the
boundary-relevant date or time could not be recovered, a note documenting the
fallback is present in the notes list (the structured-path or generic-path
note respectively). -/
theorem C7_extractor_notes (env : JsDateEnv) (raw fb : String) :
    ((parseBoardingPassPayload env raw fb).departureDateLocal = none →
      bcbpDateNote ∈ (parseBoardingPassPayload env raw fb).notes ∨
      genericDateNote ∈ (parseBoardingPassPayload env raw fb).notes) ∧
    ((parseBoardingPassPayload env raw fb).departureTimeLocal = none →
      bcbpTimeNote ∈ (parseBoardingPassPayload env raw fb).notes ∨
      genericTimeNote ∈ (parseBoardingPassPayload env raw fb).notes) := by
  unfold parseBoardingPassPayload
  cases hb : parseBcbpPayload env raw fb with
  | some b =>
    have hn := bcbp_notes env raw fb b hb
    exact ⟨fun hd => Or.inl (hn.1 hd), fun ht => Or.inl (hn.2 ht)⟩
  | none =>
    have hn := generic_notes env raw fb
    exact ⟨fun hd => Or.inr (hn.1 hd), fun ht => Or.inr (hn.2 ht)⟩

/-- Witness for C7: on the empty payload the date is missing and the generic
date note is present. -/
theorem C7_extractor_notes_witness :
    bcbpDateNote ∈ (parseBoardingPassPayload sampleDateEnv "" "").notes ∨
    genericDateNote ∈ (parseBoardingPassPayload sampleDateEnv "" "").notes :=
  (C7_extractor_notes sampleDateEnv "" "").1 rfl

/-! ## The generic-format fallback example (claim C9) -/

/-- Claim C9: on the payload `Flight AB123 JFK-LAX 2025-03-10 14:30 REF:
XYZ1234` the structured decode rejects (the whitespace-stripped payload is
shorter than 60 characters), the generic fallback path is taken, and it
extracts flight number AB123, date 2025-03-10, time 14:30 and booking
reference XYZ1234 — for every fallback boundary and ambient date environment. -/
theorem C9_generic_payload_example (env : JsDateEnv) (fb : String) :
    (parseBoardingPassPayload env
      "Flight AB123 JFK-LAX 2025-03-10 14:30 REF: XYZ1234" fb).sourceFormat = .generic ∧
    (parseBoardingPassPayload env
      "Flight AB123 JFK-LAX 2025-03-10 14:30 REF: XYZ1234" fb).flightNumber = some "AB123" ∧
    (parseBoardingPassPayload env
      "Flight AB123 JFK-LAX 2025-03-10 14:30 REF: XYZ1234" fb).departureDateLocal =
        some "2025-03-10" ∧
    (parseBoardingPassPayload env
      "Flight AB123 JFK-LAX 2025-03-10 14:30 REF: XYZ1234" fb).departureTimeLocal =
        some "14:30" ∧
    (parseBoardingPassPayload env
      "Flight AB123 JFK-LAX 2025-03-10 14:30 REF: XYZ1234" fb).bookingReference =
        some "XYZ1234" := by
  have hb : parseBcbpPayload env "Flight AB123 JFK-LAX 2025-03-10 14:30 REF: XYZ1234" fb
      = none := rfl
  unfold parseBoardingPassPayload
  rw [hb]
  exact ⟨rfl, rfl, rfl, rfl, rfl⟩

end Triaia
